import Mathlib

/-!
# The C surface declared by `Emgu.CV.Extern/features2d_c.h`

The header is a list of `CVAPI(ret) name(params);` declarations. The embedding
below is that list, in source order: every declaration that is live in the
header (the four bodies inside `/* ... */` are not declarations and are left
out of the table) with its return type, its name and its parameter list.
-/

namespace Features2d

/-- Classes of the `cv::` namespace named in the header (`flann_Index` is
`cv::flann::Index`). -/
inductive CvClass
  | FernClassifier | PatchGenerator | LDetector | SelfSimDescriptor
  | StarDetector | StarFeatureDetector
  | SIFT | SiftFeatureDetector | SiftDescriptorExtractor
  | FeatureDetector | GridAdaptedFeatureDetector
  | SURF | SurfFeatureDetector | SurfDescriptorExtractor
  | ORB | OrbFeatureDetector | OrbDescriptorExtractor
  | BriefDescriptorExtractor | FastFeatureDetector | MserFeatureDetector
  | PlanarObjectDetector | DescriptorMatcher | RTreeClassifier
  | flann_Index | KeyPoint | Size | Point | RNG
  deriving DecidableEq, Repr

/-- C structures of the OpenCV C interface named in the header. -/
inductive CStruct
  | IplImage | CvMat | CvSeq | CvArr | CvScalar | CvPoint | CvSURFParams | CvMSERParams
  deriving DecidableEq, Repr

/-- Type names that occur in the header, without qualifiers and stars. -/
inductive BaseType
  | void | int | unsignedInt | float | double | bool | size_t
  /-- The enumeration `cvflann::flann_centers_init_t`. -/
  | flann_centers_init_t
  /-- A class `cv::C`. -/
  | cv (c : CvClass)
  /-- A structure of the C interface. -/
  | c (s : CStruct)
  /-- The class `std::vector<cv::KeyPoint>`. -/
  | vectorKeyPoint
  /-- The class `std::vector<float>`. -/
  | vectorFloat
  deriving DecidableEq, Repr

/-- A type as written in the header: `const`? base `*`...`*`. -/
structure CType where
  isConst : Bool
  base : BaseType
  stars : Nat
  deriving DecidableEq, Repr

/-- A parameter of a declaration. -/
structure Param where
  type : CType
  name : String
  deriving DecidableEq, Repr

/-- One `CVAPI(ret) name(params);` declaration; `line` is the line of the
header on which `CVAPI` stands. -/
structure Decl where
  line : Nat
  ret : CType
  name : String
  params : List Param
  deriving DecidableEq, Repr

/-- Value type `b`. -/
def val (b : BaseType) : CType := ⟨false, b, 0⟩
/-- Type `const b`. -/
def cval (b : BaseType) : CType := ⟨true, b, 0⟩
/-- Type `b*`. -/
def ptr (b : BaseType) : CType := ⟨false, b, 1⟩
/-- Type `const b*`. -/
def cptr (b : BaseType) : CType := ⟨true, b, 1⟩
/-- Type `b**`. -/
def ptr2 (b : BaseType) : CType := ⟨false, b, 2⟩

/-- Parameter `t n`. -/
def p (t : CType) (n : String) : Param := ⟨t, n⟩

open BaseType in
/-- Declarations of lines 17-88 of the header. -/
def decls_17_88 : List Decl := [
  ⟨18, ptr (cv .FernClassifier), "CvFernClassifierCreate", []⟩,
  ⟨19, val void, "CvFernClassifierRelease", [p (ptr (cv .FernClassifier)) "classifier"]⟩,
  ⟨21, val void, "CvFernClassifierTrainFromSingleView",
    [p (ptr (cv .FernClassifier)) "classifier",
     p (ptr (c .IplImage)) "image",
     p (ptr vectorKeyPoint) "keypoints",
     p (val int) "_patchSize",
     p (val int) "_signatureSize",
     p (val int) "_nstructs",
     p (val int) "_structSize",
     p (val int) "_nviews",
     p (val int) "_compressionMethod",
     p (ptr (cv .PatchGenerator)) "patchGenerator"]⟩,
  ⟨34, val void, "CvPatchGeneratorInit", [p (ptr (cv .PatchGenerator)) "pg"]⟩,
  ⟨37, val void, "CvLDetectorDetectKeyPoints",
    [p (ptr (cv .LDetector)) "detector", p (ptr (c .IplImage)) "image",
     p (ptr vectorKeyPoint) "keypoints", p (val int) "maxCount", p (val bool) "scaleCoords"]⟩,
  ⟨40, ptr (cv .SelfSimDescriptor), "CvSelfSimDescriptorCreate",
    [p (val int) "smallSize", p (val int) "largeSize", p (val int) "startDistanceBucket",
     p (val int) "numberOfDistanceBuckets", p (val int) "numberOfAngles"]⟩,
  ⟨41, val void, "CvSelfSimDescriptorRelease", [p (ptr (cv .SelfSimDescriptor)) "descriptor"]⟩,
  ⟨42, val void, "CvSelfSimDescriptorCompute",
    [p (ptr (cv .SelfSimDescriptor)) "descriptor", p (ptr (c .IplImage)) "image",
     p (ptr vectorFloat) "descriptors", p (ptr (cv .Size)) "winStride",
     p (ptr (cv .Point)) "locations", p (val int) "numberOfLocation"]⟩,
  ⟨43, val int, "CvSelfSimDescriptorGetDescriptorSize",
    [p (ptr (cv .SelfSimDescriptor)) "descriptor"]⟩,
  ⟨46, ptr (cv .StarFeatureDetector), "CvStarGetFeatureDetector",
    [p (ptr (cv .StarDetector)) "detector"]⟩,
  ⟨47, val void, "CvStarFeatureDetectorRelease", [p (ptr2 (cv .StarFeatureDetector)) "detector"]⟩,
  ⟨50, ptr (cv .SIFT), "CvSIFTDetectorCreate",
    [p (val int) "nOctaves", p (val int) "nOctaveLayers", p (val int) "firstOctave",
     p (val int) "angleMode",
     p (val double) "threshold", p (val double) "edgeThreshold",
     p (val double) "magnification", p (val bool) "isNormalize",
     p (val bool) "recalculateAngles"]⟩,
  ⟨56, ptr (cv .SiftFeatureDetector), "CvSiftGetFeatureDetector", [p (ptr (cv .SIFT)) "detector"]⟩,
  ⟨58, ptr (cv .SiftDescriptorExtractor), "CvSiftGetDescriptorExtractor",
    [p (ptr (cv .SIFT)) "detector"]⟩,
  ⟨60, val void, "CvSiftFeatureDetectorRelease", [p (ptr2 (cv .SiftFeatureDetector)) "detector"]⟩,
  ⟨62, val void, "CvSiftDescriptorExtractorRelease",
    [p (ptr2 (cv .SiftDescriptorExtractor)) "extractor"]⟩,
  ⟨64, val void, "CvSIFTDetectorRelease", [p (ptr2 (cv .SIFT)) "detector"]⟩,
  ⟨66, val int, "CvSIFTDetectorGetDescriptorSize", [p (ptr (cv .SIFT)) "detector"]⟩,
  ⟨83, val void, "CvSIFTDetectorComputeDescriptors",
    [p (ptr (cv .SIFT)) "detector", p (ptr (c .IplImage)) "image",
     p (ptr vectorKeyPoint) "keypoints", p (ptr (c .CvMat)) "descriptors"]⟩,
  ⟨86, val void, "CvFeatureDetectorDetectKeyPoints",
    [p (ptr (cv .FeatureDetector)) "detector", p (ptr (c .IplImage)) "image",
     p (ptr (c .IplImage)) "mask", p (ptr vectorKeyPoint) "keypoints"]⟩,
  ⟨88, val void, "CvFeatureDetectorRelease", [p (ptr2 (cv .FeatureDetector)) "detector"]⟩
]

open BaseType in
/-- Declarations of lines 90-179 of the header. -/
def decls_90_179 : List Decl := [
  ⟨91, ptr (cv .GridAdaptedFeatureDetector), "GridAdaptedFeatureDetectorCreate",
    [p (ptr (cv .FeatureDetector)) "detector",
     p (val int) "maxTotalKeypoints",
     p (val int) "gridRows", p (val int) "gridCols"]⟩,
  ⟨106, val void, "GridAdaptedFeatureDetectorRelease",
    [p (ptr2 (cv .GridAdaptedFeatureDetector)) "detector"]⟩,
  ⟨109, ptr (cv .SurfFeatureDetector), "CvSURFGetFeatureDetector",
    [p (ptr (c .CvSURFParams)) "detector"]⟩,
  ⟨111, ptr (cv .SurfDescriptorExtractor), "CvSURFGetDescriptorExtractor",
    [p (ptr (c .CvSURFParams)) "detector"]⟩,
  ⟨113, val void, "CvSURFFeatureDetectorRelease", [p (ptr2 (cv .SurfFeatureDetector)) "detector"]⟩,
  ⟨115, val void, "CvSURFDescriptorExtractorRelease",
    [p (ptr2 (cv .SurfDescriptorExtractor)) "extractor"]⟩,
  ⟨126, val void, "CvSURFDetectorComputeDescriptors",
    [p (ptr (cv .SURF)) "detector", p (ptr (c .IplImage)) "image",
     p (ptr vectorKeyPoint) "keypoints", p (ptr (c .CvMat)) "descriptors"]⟩,
  ⟨129, ptr (cv .ORB), "CvOrbDetectorCreate",
    [p (val int) "numberOfFeatures", p (val float) "scaleFactor", p (val unsignedInt) "nLevels",
     p (val int) "edgeThreshold", p (val unsignedInt) "firstLevel"]⟩,
  ⟨131, ptr (cv .OrbFeatureDetector), "CvOrbGetFeatureDetector",
    [p (val int) "numberOfFeatures", p (val float) "scaleFactor", p (val unsignedInt) "nLevels",
     p (val int) "edgeThreshold", p (val unsignedInt) "firstLevel"]⟩,
  ⟨133, ptr (cv .OrbDescriptorExtractor), "CvOrbGetDescriptorExtractor",
    [p (val float) "scaleFactor", p (val unsignedInt) "nLevels",
     p (val int) "edgeThreshold", p (val unsignedInt) "firstLevel"]⟩,
  ⟨135, val void, "CvOrbFeatureDetectorRelease", [p (ptr2 (cv .OrbFeatureDetector)) "detector"]⟩,
  ⟨137, val void, "CvOrbDescriptorExtractorRelease",
    [p (ptr2 (cv .OrbDescriptorExtractor)) "extractor"]⟩,
  ⟨139, val void, "CvOrbDetectorRelease", [p (ptr2 (cv .ORB)) "detector"]⟩,
  ⟨141, val int, "CvOrbDetectorGetDescriptorSize", [p (ptr (cv .ORB)) "detector"]⟩,
  ⟨143, val void, "CvOrbDetectorComputeDescriptors",
    [p (ptr (cv .ORB)) "detector", p (ptr (c .IplImage)) "image", p (ptr (c .IplImage)) "mask",
     p (ptr vectorKeyPoint) "keypoints", p (ptr (c .CvMat)) "descriptors"]⟩,
  ⟨146, ptr (cv .BriefDescriptorExtractor), "CvBriefDescriptorExtractorCreate",
    [p (val int) "descriptorSize"]⟩,
  ⟨148, val int, "CvBriefDescriptorExtractorGetDescriptorSize",
    [p (ptr (cv .BriefDescriptorExtractor)) "extractor"]⟩,
  ⟨150, val void, "CvBriefDescriptorComputeDescriptors",
    [p (ptr (cv .BriefDescriptorExtractor)) "extractor", p (ptr (c .IplImage)) "image",
     p (ptr vectorKeyPoint) "keypoints", p (ptr (c .CvMat)) "descriptors"]⟩,
  ⟨152, val void, "CvBriefDescriptorExtractorRelease",
    [p (ptr2 (cv .BriefDescriptorExtractor)) "extractor"]⟩,
  ⟨155, ptr (cv .FastFeatureDetector), "CvFASTGetFeatureDetector",
    [p (val int) "threshold", p (val bool) "nonmax_supression"]⟩,
  ⟨157, val void, "CvFASTFeatureDetectorRelease", [p (ptr2 (cv .FastFeatureDetector)) "detector"]⟩,
  ⟨160, ptr (cv .MserFeatureDetector), "CvMserGetFeatureDetector",
    [p (ptr (c .CvMSERParams)) "detector"]⟩,
  ⟨162, val void, "CvMserFeatureDetectorRelease", [p (ptr2 (cv .MserFeatureDetector)) "detector"]⟩,
  ⟨165, ptr (cv .PlanarObjectDetector), "CvPlanarObjectDetectorDefaultCreate", []⟩,
  ⟨166, val void, "CvPlanarObjectDetectorRelease", [p (ptr (cv .PlanarObjectDetector)) "detector"]⟩,
  ⟨167, val void, "CvPlanarObjectDetectorTrain",
    [p (ptr (cv .PlanarObjectDetector)) "objectDetector",
     p (ptr (c .IplImage)) "image",
     p (val int) "_npoints",
     p (val int) "_patchSize",
     p (val int) "_nstructs",
     p (val int) "_structSize",
     p (val int) "_nviews",
     p (ptr (cv .LDetector)) "detector",
     p (ptr (cv .PatchGenerator)) "patchGenerator"]⟩,
  ⟨177, val void, "CvPlanarObjectDetectorDetect",
    [p (ptr (cv .PlanarObjectDetector)) "detector", p (ptr (c .IplImage)) "image",
     p (ptr (c .CvMat)) "homography", p (ptr (c .CvSeq)) "corners"]⟩,
  ⟨179, val void, "CvPlanarObjectDetectorGetModelPoints",
    [p (ptr (cv .PlanarObjectDetector)) "detector", p (ptr (c .CvSeq)) "modelPoints"]⟩
]

open BaseType in
/-- Declarations of lines 181-259 of the header. -/
def decls_181_259 : List Decl := [
  ⟨182, val void, "drawKeypoints",
    [p (cptr (c .IplImage)) "image",
     p (cptr vectorKeyPoint) "keypoints",
     p (ptr (c .IplImage)) "outImage",
     p (cval (c .CvScalar)) "color",
     p (val int) "flags"]⟩,
  ⟨190, val void, "drawMatchedFeatures",
    [p (cptr (c .IplImage)) "img1", p (cptr vectorKeyPoint) "keypoints1",
     p (cptr (c .IplImage)) "img2", p (cptr vectorKeyPoint) "keypoints2",
     p (cptr (c .CvMat)) "matchIndicies",
     p (ptr (c .IplImage)) "outImg",
     p (cval (c .CvScalar)) "matchColor", p (cval (c .CvScalar)) "singlePointColor",
     p (cptr (c .CvMat)) "matchesMask",
     p (val int) "flags"]⟩,
  ⟨200, val void, "CvDescriptorMatcherAdd",
    [p (ptr (cv .DescriptorMatcher)) "matcher", p (ptr (c .CvMat)) "trainDescriptor"]⟩,
  ⟨202, val void, "CvDescriptorMatcherKnnMatch",
    [p (ptr (cv .DescriptorMatcher)) "matcher", p (cptr (c .CvMat)) "queryDescriptors",
     p (ptr (c .CvMat)) "trainIdx", p (ptr (c .CvMat)) "distance", p (val int) "k",
     p (cptr (c .CvMat)) "mask"]⟩,
  ⟨212, ptr (cv .DescriptorMatcher), "CvBruteForceMatcherCreate", [p (val int) "distanceType"]⟩,
  ⟨214, val void, "CvBruteForceMatcherRelease",
    [p (ptr2 (cv .DescriptorMatcher)) "matcher", p (val int) "distanceType"]⟩,
  ⟨217, ptr (cv .RTreeClassifier), "CvRTreeClassifierCreate", []⟩,
  ⟨218, val void, "CvRTreeClassifierRelease", [p (ptr (cv .RTreeClassifier)) "classifier"]⟩,
  ⟨219, val void, "CvRTreeClassifierTrain",
    [p (ptr (cv .RTreeClassifier)) "classifier",
     p (ptr (c .IplImage)) "train_image",
     p (ptr (c .CvPoint)) "train_points",
     p (val int) "numberOfPoints",
     p (ptr (cv .RNG)) "rng",
     p (val int) "num_trees", p (val int) "depth",
     p (val int) "views", p (val size_t) "reduced_num_dim",
     p (val int) "num_quant_bits"]⟩,
  ⟨229, val int, "CvRTreeClassifierGetOriginalNumClasses",
    [p (ptr (cv .RTreeClassifier)) "classifier"]⟩,
  ⟨230, val int, "CvRTreeClassifierGetNumClasses", [p (ptr (cv .RTreeClassifier)) "classifier"]⟩,
  ⟨232, val int, "CvRTreeClassifierGetSigniture",
    [p (ptr (cv .RTreeClassifier)) "classifier",
     p (ptr (c .IplImage)) "image",
     p (ptr (c .CvPoint)) "point",
     p (val int) "patchSize",
     p (ptr float) "signiture"]⟩,
  ⟨240, ptr (cv .flann_Index), "CvFlannIndexCreateKDTree",
    [p (ptr (c .CvMat)) "features", p (val int) "trees"]⟩,
  ⟨242, ptr (cv .flann_Index), "CvFlannIndexCreateLinear", [p (ptr (c .CvMat)) "features"]⟩,
  ⟨244, ptr (cv .flann_Index), "CvFlannIndexCreateKMeans",
    [p (ptr (c .CvMat)) "features", p (val int) "branching_", p (val int) "iterations_",
     p (val flann_centers_init_t) "centers_init_", p (val float) "cb_index_"]⟩,
  ⟨246, ptr (cv .flann_Index), "CvFlannIndexCreateComposite",
    [p (ptr (c .CvMat)) "features", p (val int) "trees", p (val int) "branching_",
     p (val int) "iterations_", p (val flann_centers_init_t) "centers_init_",
     p (val float) "cb_index_"]⟩,
  ⟨248, ptr (cv .flann_Index), "CvFlannIndexCreateAutotuned",
    [p (ptr (c .CvMat)) "features", p (val float) "target_precision",
     p (val float) "build_weight", p (val float) "memory_weight",
     p (val float) "sample_fraction"]⟩,
  ⟨250, val void, "CvFlannIndexKnnSearch",
    [p (ptr (cv .flann_Index)) "index", p (ptr (c .CvMat)) "queries",
     p (ptr (c .CvMat)) "indices", p (ptr (c .CvMat)) "dists", p (val int) "knn",
     p (val int) "checks"]⟩,
  ⟨252, val int, "CvFlannIndexRadiusSearch",
    [p (ptr (cv .flann_Index)) "index", p (ptr (c .CvMat)) "queries",
     p (ptr (c .CvMat)) "indices", p (ptr (c .CvMat)) "dists", p (val float) "radius",
     p (val int) "checks"]⟩,
  ⟨254, val void, "CvFlannIndexRelease", [p (ptr (cv .flann_Index)) "index"]⟩,
  ⟨257, val bool, "getHomographyMatrixFromMatchedFeatures",
    [p (ptr vectorKeyPoint) "model", p (ptr vectorKeyPoint) "observed",
     p (ptr (c .CvArr)) "indices", p (ptr (c .CvArr)) "mask",
     p (val double) "randsacThreshold", p (ptr (c .CvMat)) "homography"]⟩,
  ⟨259, val int, "voteForSizeAndOrientation",
    [p (ptr vectorKeyPoint) "modelKeyPoints", p (ptr vectorKeyPoint) "observedKeyPoints",
     p (ptr (c .CvArr)) "indices", p (ptr (c .CvArr)) "mask",
     p (val double) "scaleIncrement", p (val int) "rotationBins"]⟩
]

/-- The header `features2d_c.h`: all its declarations, in source order. -/
def features2d_c : List Decl := decls_17_88 ++ decls_90_179 ++ decls_181_259

/-! ## Vocabulary of the claims -/

/-- The class `T` when the type is `cv::T` followed by `n` stars, `n ∈ stars`. -/
def cvClassOf (stars : List Nat) (t : CType) : Option CvClass :=
  match t.base with
  | .cv k => if t.stars ∈ stars then some k else none
  | _ => none

/-- The class `T` of a function that returns `cv::T*`: a factory. -/
def Decl.factoryClass (d : Decl) : Option CvClass := cvClassOf [1] d.ret

/-- A factory returns a pointer to a native `cv::` class. -/
def Decl.isFactory (d : Decl) : Bool := d.factoryClass.isSome

/-- The name ends in `Release`. -/
def Decl.isRelease (d : Decl) : Bool := "Release".data.isSuffixOf d.name.data

/-- The name ends in `GetDescriptorSize`. -/
def Decl.isGetDescriptorSize (d : Decl) : Bool := "GetDescriptorSize".data.isSuffixOf d.name.data

/-- The class `T` when the first parameter is `cv::T*` or `cv::T**`. -/
def Decl.handleClass (d : Decl) : Option CvClass :=
  match d.params with
  | [] => none
  | q :: _ => cvClassOf [1, 2] q.type

/-- The class `T` when the first parameter is `cv::T*`. -/
def Decl.firstPtrClass (d : Decl) : Option CvClass :=
  match d.params with
  | [] => none
  | q :: _ => cvClassOf [1] q.type

/-- The release functions of class `T`: name ending in `Release`, first
parameter `T*` or `T**`. -/
def releasesOf (h : List Decl) (T : CvClass) : List Decl :=
  h.filter (fun d => d.isRelease && d.handleClass == some T)

/-- The functions of the header that return `T*`. -/
def factoriesOf (h : List Decl) (T : CvClass) : List Decl :=
  h.filter (fun d => d.factoryClass == some T)

/-- Primitive numeric, enumeration or boolean value type: `int`,
`unsigned int`, `float`, `double`, `bool`, `size_t`, or an enumeration, with
no star. -/
def CType.isPrimitive (t : CType) : Bool :=
  t.stars == 0 &&
  match t.base with
  | .int | .unsignedInt | .float | .double | .bool | .size_t | .flann_centers_init_t => true
  | _ => false

/-- Numeric value type: `int`, `unsigned int`, `float`, `double` or `size_t`
with no star. `bool` and the enumeration are primitive and not numeric. -/
def CType.isNumeric (t : CType) : Bool :=
  t.stars == 0 &&
  match t.base with
  | .int | .unsignedInt | .float | .double | .size_t => true
  | _ => false

/-- The type has at least one star. -/
def CType.isPointer (t : CType) : Bool := 0 < t.stars

/-- Value types `void`, `int`, `bool`. -/
def CType.isVoidOrSmallScalar (t : CType) : Bool :=
  t.stars == 0 && (t.base == .void || t.base == .int || t.base == .bool)

/-- Find a declaration by name. -/
def lookup (h : List Decl) (n : String) : Option Decl := h.find? (fun d => d.name == n)

/-- The five descriptor-computing functions of the header. -/
def descriptorComputing : List String :=
  ["CvSelfSimDescriptorCompute", "CvSIFTDetectorComputeDescriptors",
   "CvSURFDetectorComputeDescriptors", "CvOrbDetectorComputeDescriptors",
   "CvBriefDescriptorComputeDescriptors"]

/-- A descriptor-size query on handles of class `T`: returns `int`, name ending
in `GetDescriptorSize`, its only parameter a `T*`. -/
def Decl.isSizeQueryFor (T : CvClass) (g : Decl) : Bool :=
  g.isGetDescriptorSize && g.ret == val .int && g.params.map (·.type) == [ptr (.cv T)]

/-- The five index builders named by the spec, in the order of the header. -/
def flannBuilders : List String :=
  ["CvFlannIndexCreateKDTree", "CvFlannIndexCreateLinear", "CvFlannIndexCreateKMeans",
   "CvFlannIndexCreateComposite", "CvFlannIndexCreateAutotuned"]

/-- The two index builders that take the enumeration parameter
`cvflann::flann_centers_init_t centers_init_`. -/
def flannBuildersWithCentersInit : List String :=
  ["CvFlannIndexCreateKMeans", "CvFlannIndexCreateComposite"]

/-- Types of the objects a factory is built from, when it takes one: the first
parameter of `CvStarGetFeatureDetector`, `CvSiftGet*`,
`GridAdaptedFeatureDetectorCreate`, `CvSURFGet*`, `CvMserGetFeatureDetector`
and `CvFlannIndexCreate*`. -/
def factorySourceTypes : List CType :=
  [ptr (.cv .StarDetector), ptr (.cv .SIFT), ptr (.cv .FeatureDetector),
   ptr (.c .CvSURFParams), ptr (.c .CvMSERParams), ptr (.c .CvMat)]

/-- Classes whose handles the header operates on without declaring a function
that returns them. -/
def callerProvidedClasses : List CvClass := [.PatchGenerator, .LDetector, .FeatureDetector, .SURF]

/-! ## Descriptor computation -/

/-- The call `v->resize(n)` on a `std::vector`: the first `n` elements are kept
and the vector is padded with `fill` up to `n` elements. -/
def resize {V : Type} (fill : V) (v : List V) (n : Nat) : List V :=
  v.take n ++ List.replicate (n - v.length) fill

/-- Line 77 of the header, in the body of `CvSIFTDetectorDetectFeature` that is
commented out: `descriptors->resize(keypoints->size()*detector->descriptorSize());` -/
def CvSIFTDetectorDetectFeature_resize {K V : Type} (fill : V) (descriptorSize : Nat)
    (keypoints : List K) (descriptors : List V) : List V :=
  resize fill descriptors (keypoints.length * descriptorSize)

/-- Modelled from the spec: the native object behind a detector or extractor
handle (`cv::SIFT`, `cv::SURF`, `cv::ORB`, `cv::BriefDescriptorExtractor`),
which lives in the wrapped library. It reports a descriptor size and maps a
keypoint of an image to its descriptor, "a fixed-length numeric vector
summarizing local image content around a keypoint". -/
structure DetectorHandle (Image K V : Type) where
  descriptorSize : Nat
  describe : Image → K → List V
  describe_length : ∀ img kp, (describe img kp).length = descriptorSize

/-- Modelled from the spec: `ComputeDescriptors(Handle, Image, KeypointSequence)
-> DescriptorMatrix`, "a fixed-width numeric row per keypoint". It stands for
`CvSIFTDetectorComputeDescriptors`, `CvSURFDetectorComputeDescriptors`,
`CvOrbDetectorComputeDescriptors` and `CvBriefDescriptorComputeDescriptors`,
whose bodies are in `features2d_c.cpp`; the header holds their declarations
only. The matrix is the list of its rows. -/
def ComputeDescriptors {Image K V : Type} (detector : DetectorHandle Image K V) (image : Image)
    (keypoints : List K) : List (List V) :=
  keypoints.map (detector.describe image)

/-- A handle for the examples: the descriptor of a keypoint `(x, y)` of an
image given as a function of the coordinates is the pair of the image values
at the keypoint and at its right neighbour. -/
def exampleHandle : DetectorHandle (Nat → Nat → Int) (Nat × Nat) Int where
  descriptorSize := 2
  describe := fun img kp => [img kp.1 kp.2, img (kp.1 + 1) kp.2]
  describe_length := fun _ _ => rfl

/-! ## Matching -/

/-- Modelled from the spec: "a distance metric" on descriptor rows, which lives
in the wrapped library: a distance that is zero from a row to itself, is
symmetric and obeys the triangle inequality. Distances are integers, in place
of the `float` entries of the output matrix. -/
structure Metric (D : Type) where
  dist : D → D → Int
  dist_self : ∀ a, dist a a = 0
  dist_comm : ∀ a b, dist a b = dist b a
  dist_triangle : ∀ a b c, dist a c ≤ dist a b + dist b c

/-- Modelled from the spec: the native object behind a `cv::DescriptorMatcher*`
handle, which lives in the wrapped library: "the chosen metric" and the
training rows in insertion order. -/
structure DescriptorMatcher (D : Type) where
  metric : Metric D
  train : List D

/-- C1: every function of the header that returns a pointer to a native class
`cv::T` (a factory) has exactly one release function: exactly one declaration
of the header has a name ending in `Release` and a first parameter of type
`T*` or `T**`. -/
theorem factory_has_exactly_one_release (d : Decl) (hd : d ∈ features2d_c) (T : CvClass)
    (hT : d.factoryClass = some T) : (releasesOf features2d_c T).length = 1 := by
  revert d T
  decide

/-- C1 at `CvFlannIndexCreateKDTree`, one of the five factories that share
`CvFlannIndexRelease`. -/
theorem factory_has_exactly_one_release_witness :
    (⟨240, ptr (.cv .flann_Index), "CvFlannIndexCreateKDTree",
        [p (ptr (.c .CvMat)) "features", p (val .int) "trees"]⟩ : Decl) ∈ features2d_c ∧
      (releasesOf features2d_c .flann_Index).length = 1 :=
  ⟨by decide,
    factory_has_exactly_one_release
      ⟨240, ptr (.cv .flann_Index), "CvFlannIndexCreateKDTree",
        [p (ptr (.c .CvMat)) "features", p (val .int) "trees"]⟩
      (by decide) .flann_Index (by decide)⟩

/-- C2 fails as stated: `CvBruteForceMatcherRelease` is a release function of
the header and takes two parameters, the handle and `int distanceType`. -/
theorem release_takes_one_parameter_counterexample :
    ¬ (∀ d ∈ features2d_c, d.isRelease = true →
        d.ret = val .void ∧ d.handleClass.isSome = true ∧ d.params.length = 1) := by
  intro h
  have h2 := (h ⟨214, val .void, "CvBruteForceMatcherRelease",
    [p (ptr2 (.cv .DescriptorMatcher)) "matcher", p (val .int) "distanceType"]⟩
    (by decide) (by decide)).2.2
  revert h2
  decide

/-- C2, amended: every release function of the header returns `void` and takes
the handle (`T*` or `T**`) as its first parameter; it takes no other
parameter, except `CvBruteForceMatcherRelease`, whose parameters are the
handle `cv::DescriptorMatcher**` and `int distanceType`. -/
theorem release_shape (d : Decl) (hd : d ∈ features2d_c) (hr : d.isRelease = true) :
    d.ret = val .void ∧ d.handleClass.isSome = true ∧
      (d.name ≠ "CvBruteForceMatcherRelease" → d.params.length = 1) ∧
      (d.name = "CvBruteForceMatcherRelease" →
        d.params = [p (ptr2 (.cv .DescriptorMatcher)) "matcher", p (val .int) "distanceType"]) := by
  revert d
  decide

/-- C2 amended, at `CvFlannIndexRelease`. -/
theorem release_shape_witness :
    (⟨254, val .void, "CvFlannIndexRelease", [p (ptr (.cv .flann_Index)) "index"]⟩ : Decl)
        ∈ features2d_c ∧
      (⟨254, val .void, "CvFlannIndexRelease",
        [p (ptr (.cv .flann_Index)) "index"]⟩ : Decl).params.length = 1 :=
  ⟨by decide,
    (release_shape ⟨254, val .void, "CvFlannIndexRelease", [p (ptr (.cv .flann_Index)) "index"]⟩
      (by decide) (by decide)).2.2.1 (by decide)⟩

/-- C3 fails as stated: `CvFlannIndexCreateLinear` is a factory and its only
parameter is the pointer `CvMat* features`. -/
theorem factory_takes_primitives_counterexample :
    ¬ (∀ d ∈ features2d_c, d.isFactory = true →
        d.params.all (fun q => q.type.isPrimitive && !q.type.isPointer) = true ∧
          d.ret.stars = 1) := by
  intro h
  have h1 := (h ⟨242, ptr (.cv .flann_Index), "CvFlannIndexCreateLinear",
    [p (ptr (.c .CvMat)) "features"]⟩ (by decide) (by decide)).1
  revert h1
  decide

/-- C3, amended: every factory of the header returns a single pointer as its
handle, and every parameter after the first is a primitive numeric,
enumeration or boolean value; the first parameter is either such a primitive
or one pointer to the object the handle is built from (`cv::StarDetector*`,
`cv::SIFT*`, `cv::FeatureDetector*`, `CvSURFParams*`, `CvMSERParams*`,
`CvMat*`). -/
theorem factory_parameters (d : Decl) (hd : d ∈ features2d_c) (hf : d.isFactory = true) :
    d.ret.stars = 1 ∧
      (∀ q ∈ d.params.tail, q.type.isPrimitive = true) ∧
      (∀ q ∈ d.params.head?, q.type.isPrimitive = true ∨ q.type ∈ factorySourceTypes) := by
  revert d
  decide

/-- C3 amended, at `GridAdaptedFeatureDetectorCreate`: a pointer first, three
`int` after it. -/
theorem factory_parameters_witness :
    (⟨91, ptr (.cv .GridAdaptedFeatureDetector), "GridAdaptedFeatureDetectorCreate",
        [p (ptr (.cv .FeatureDetector)) "detector", p (val .int) "maxTotalKeypoints",
         p (val .int) "gridRows", p (val .int) "gridCols"]⟩ : Decl) ∈ features2d_c ∧
      ∀ q ∈ [p (val .int) "maxTotalKeypoints", p (val .int) "gridRows", p (val .int) "gridCols"],
        q.type.isPrimitive = true :=
  ⟨by decide,
    (factory_parameters
      ⟨91, ptr (.cv .GridAdaptedFeatureDetector), "GridAdaptedFeatureDetectorCreate",
        [p (ptr (.cv .FeatureDetector)) "detector", p (val .int) "maxTotalKeypoints",
         p (val .int) "gridRows", p (val .int) "gridCols"]⟩
      (by decide) (by decide)).2.1⟩

/-- C4 fails as stated: `CvSURFDetectorComputeDescriptors` takes a `cv::SURF*`
handle and no declaration of the header is a descriptor-size query on
`cv::SURF*`. -/
theorem descriptor_size_query_counterexample :
    ¬ (∀ d ∈ features2d_c, d.name ∈ descriptorComputing →
        ∀ T, d.firstPtrClass = some T → ∃ g ∈ features2d_c, g.isSizeQueryFor T = true) := by
  intro h
  have h1 := h ⟨126, val .void, "CvSURFDetectorComputeDescriptors",
    [p (ptr (.cv .SURF)) "detector", p (ptr (.c .IplImage)) "image",
     p (ptr .vectorKeyPoint) "keypoints", p (ptr (.c .CvMat)) "descriptors"]⟩
    (by decide) (by decide) .SURF (by decide)
  revert h1
  decide

/-- C4, amended: each of the five descriptor-computing functions is declared
and takes a handle `T*` first; for `CvSelfSimDescriptorCompute`,
`CvSIFTDetectorComputeDescriptors`, `CvOrbDetectorComputeDescriptors` and
`CvBriefDescriptorComputeDescriptors` the header declares a function
returning `int` whose name ends in `GetDescriptorSize` and whose only
parameter is a `T*`; for the handle `cv::SURF*` of
`CvSURFDetectorComputeDescriptors` it declares none. -/
theorem descriptor_size_query (d : Decl) (hd : d ∈ features2d_c)
    (hn : d.name ∈ descriptorComputing) :
    ∃ T, d.firstPtrClass = some T ∧
      ((∃ g ∈ features2d_c, g.isSizeQueryFor T = true) ↔
        d.name ≠ "CvSURFDetectorComputeDescriptors") ∧
      (d.name = "CvSURFDetectorComputeDescriptors" →
        T = .SURF ∧ ∀ g ∈ features2d_c, g.isGetDescriptorSize = true → g.handleClass ≠ some .SURF) := by
  revert d
  decide

/-- C4 amended, at `CvOrbDetectorComputeDescriptors`. -/
theorem descriptor_size_query_witness :
    (⟨143, val .void, "CvOrbDetectorComputeDescriptors",
        [p (ptr (.cv .ORB)) "detector", p (ptr (.c .IplImage)) "image",
         p (ptr (.c .IplImage)) "mask", p (ptr .vectorKeyPoint) "keypoints",
         p (ptr (.c .CvMat)) "descriptors"]⟩ : Decl) ∈ features2d_c ∧
      ∃ T, (⟨143, val .void, "CvOrbDetectorComputeDescriptors",
        [p (ptr (.cv .ORB)) "detector", p (ptr (.c .IplImage)) "image",
         p (ptr (.c .IplImage)) "mask", p (ptr .vectorKeyPoint) "keypoints",
         p (ptr (.c .CvMat)) "descriptors"]⟩ : Decl).firstPtrClass = some T ∧
        ∃ g ∈ features2d_c, g.isSizeQueryFor T = true :=
  ⟨by decide,
    (descriptor_size_query
      ⟨143, val .void, "CvOrbDetectorComputeDescriptors",
        [p (ptr (.cv .ORB)) "detector", p (ptr (.c .IplImage)) "image",
         p (ptr (.c .IplImage)) "mask", p (ptr .vectorKeyPoint) "keypoints",
         p (ptr (.c .CvMat)) "descriptors"]⟩
      (by decide) (by decide)).imp (fun _ h => ⟨h.1, h.2.1.mpr (by decide)⟩)⟩

/-- C5: every function of the header that is not a factory returns `void`,
`int` or `bool`; `drawKeypoints` and `drawMatchedFeatures` are declared and
return `void`, `CvFlannIndexRadiusSearch` and `voteForSizeAndOrientation`
return `int`, and `getHomographyMatrixFromMatchedFeatures` returns `bool`. -/
theorem operation_returns_void_or_scalar (d : Decl) (hd : d ∈ features2d_c)
    (hf : d.isFactory = false) :
    d.ret ∈ [val .void, val .int, val .bool] ∧
      (lookup features2d_c "drawKeypoints").map Decl.ret = some (val .void) ∧
      (lookup features2d_c "drawMatchedFeatures").map Decl.ret = some (val .void) ∧
      (lookup features2d_c "CvFlannIndexRadiusSearch").map Decl.ret = some (val .int) ∧
      (lookup features2d_c "voteForSizeAndOrientation").map Decl.ret = some (val .int) ∧
      (lookup features2d_c "getHomographyMatrixFromMatchedFeatures").map Decl.ret
        = some (val .bool) := by
  revert d
  decide

/-- C5 at `CvFlannIndexRelease`. -/
theorem operation_returns_void_or_scalar_witness :
    (⟨254, val .void, "CvFlannIndexRelease", [p (ptr (.cv .flann_Index)) "index"]⟩ : Decl)
        ∈ features2d_c ∧
      val .void ∈ [val .void, val .int, val .bool] :=
  ⟨by decide,
    (operation_returns_void_or_scalar
      ⟨254, val .void, "CvFlannIndexRelease", [p (ptr (.cv .flann_Index)) "index"]⟩
      (by decide) (by decide)).1⟩

/-- C6 fails as stated: `CvFlannIndexCreateKMeans` returns `cv::flann::Index*`
and its fourth parameter, `cvflann::flann_centers_init_t centers_init_`, is
an enumeration, not a numeric parameter. -/
theorem flann_builders_numeric_counterexample :
    ¬ (∀ d ∈ features2d_c,
        (d.factoryClass = some .flann_Index ↔ d.name ∈ flannBuilders) ∧
          (d.factoryClass = some .flann_Index →
            d.params.head?.map Param.type = some (ptr (.c .CvMat)) ∧
              ∀ q ∈ d.params.tail, q.type.isNumeric = true)) := by
  intro h
  have h1 := ((h ⟨244, ptr (.cv .flann_Index), "CvFlannIndexCreateKMeans",
    [p (ptr (.c .CvMat)) "features", p (val .int) "branching_", p (val .int) "iterations_",
     p (val .flann_centers_init_t) "centers_init_", p (val .float) "cb_index_"]⟩
    (by decide)).2 (by decide)).2 (p (val .flann_centers_init_t) "centers_init_") (by decide)
  revert h1
  decide

/-- C6, amended: a function of the header returns `cv::flann::Index*` exactly
when it is one of `CvFlannIndexCreateKDTree`, `CvFlannIndexCreateLinear`,
`CvFlannIndexCreateKMeans`, `CvFlannIndexCreateComposite` and
`CvFlannIndexCreateAutotuned`; the five are declared, once each; each takes
the feature matrix `CvMat* features` first, and every parameter after it is
numeric, an `int` or a `float`, except the enumeration parameter
`cvflann::flann_centers_init_t centers_init_`, which `CvFlannIndexCreateKMeans`
and `CvFlannIndexCreateComposite` take and no other builder does. -/
theorem flann_index_builders (d : Decl) (hd : d ∈ features2d_c) :
    (d.factoryClass = some .flann_Index ↔ d.name ∈ flannBuilders) ∧
      (factoriesOf features2d_c .flann_Index).map Decl.name = flannBuilders ∧
      (d.factoryClass = some .flann_Index →
        d.params.head? = some (p (ptr (.c .CvMat)) "features") ∧
          (∀ q ∈ d.params.tail,
            (q.type.isNumeric = true ∧ q.type ∈ [val .int, val .float]) ∨
              (q = p (val .flann_centers_init_t) "centers_init_" ∧
                d.name ∈ flannBuildersWithCentersInit)) ∧
          (d.name ∈ flannBuildersWithCentersInit →
            p (val .flann_centers_init_t) "centers_init_" ∈ d.params.tail)) := by
  revert d
  decide

/-- C6 amended, at `CvFlannIndexCreateKMeans`. -/
theorem flann_index_builders_witness :
    (⟨244, ptr (.cv .flann_Index), "CvFlannIndexCreateKMeans",
        [p (ptr (.c .CvMat)) "features", p (val .int) "branching_", p (val .int) "iterations_",
         p (val .flann_centers_init_t) "centers_init_", p (val .float) "cb_index_"]⟩ : Decl)
        ∈ features2d_c ∧
      (factoriesOf features2d_c .flann_Index).map Decl.name = flannBuilders :=
  ⟨by decide,
    (flann_index_builders
      ⟨244, ptr (.cv .flann_Index), "CvFlannIndexCreateKMeans",
        [p (ptr (.c .CvMat)) "features", p (val .int) "branching_", p (val .int) "iterations_",
         p (val .flann_centers_init_t) "centers_init_", p (val .float) "cb_index_"]⟩
      (by decide)).2.1⟩

/-- C9 fails as stated: `CvFeatureDetectorRelease` is a release function with
first parameter `cv::FeatureDetector**`, and no function of the header returns
`cv::FeatureDetector*`. -/
theorem release_has_factory_counterexample :
    ¬ (∀ d ∈ features2d_c, d.isRelease = true →
        ∀ T, d.handleClass = some T → factoriesOf features2d_c T ≠ []) := by
  intro h
  exact h ⟨88, val .void, "CvFeatureDetectorRelease",
    [p (ptr2 (.cv .FeatureDetector)) "detector"]⟩ (by decide) (by decide) .FeatureDetector
    (by decide) (by decide)

/-- C9, amended: every release function of the header takes a handle of some
class `cv::T` first; for every release function other than
`CvFeatureDetectorRelease` the header declares at least one function that
returns `T*`; for `CvFeatureDetectorRelease`, whose handle is
`cv::FeatureDetector**`, it declares none. -/
theorem release_has_factory (d : Decl) (hd : d ∈ features2d_c) (hr : d.isRelease = true) :
    ∃ T, d.handleClass = some T ∧
      (factoriesOf features2d_c T ≠ [] ↔ d.name ≠ "CvFeatureDetectorRelease") ∧
      (d.name = "CvFeatureDetectorRelease" → T = .FeatureDetector) := by
  revert d
  decide

/-- C9 amended, at `CvStarFeatureDetectorRelease`. -/
theorem release_has_factory_witness :
    (⟨47, val .void, "CvStarFeatureDetectorRelease",
        [p (ptr2 (.cv .StarFeatureDetector)) "detector"]⟩ : Decl) ∈ features2d_c ∧
      ∃ T, (⟨47, val .void, "CvStarFeatureDetectorRelease",
        [p (ptr2 (.cv .StarFeatureDetector)) "detector"]⟩ : Decl).handleClass = some T ∧
        factoriesOf features2d_c T ≠ [] :=
  ⟨by decide,
    (release_has_factory
      ⟨47, val .void, "CvStarFeatureDetectorRelease",
        [p (ptr2 (.cv .StarFeatureDetector)) "detector"]⟩
      (by decide) (by decide)).imp (fun _ h => ⟨h.1, h.2.1.mpr (by decide)⟩)⟩

/-- C10 fails as stated: `CvPatchGeneratorInit` is neither a factory nor a
release function, its first parameter is a `cv::PatchGenerator*`, and no
function of the header returns `cv::PatchGenerator*`. -/
theorem operation_handle_has_factory_counterexample :
    ¬ (∀ d ∈ features2d_c, d.isFactory = false → d.isRelease = false →
        ∀ T, d.firstPtrClass = some T → factoriesOf features2d_c T ≠ []) := by
  intro h
  exact h ⟨34, val .void, "CvPatchGeneratorInit", [p (ptr (.cv .PatchGenerator)) "pg"]⟩
    (by decide) (by decide) (by decide) .PatchGenerator (by decide) (by decide)

/-- C10, amended: for every function of the header that is neither a factory
nor a release function and whose first parameter is a pointer to a native
class `cv::T`, some function of the header returns `T*`, unless `T` is one of
`cv::PatchGenerator`, `cv::LDetector`, `cv::FeatureDetector` and `cv::SURF`:
these four are the handles of `CvPatchGeneratorInit`,
`CvLDetectorDetectKeyPoints`, `CvFeatureDetectorDetectKeyPoints` and
`CvSURFDetectorComputeDescriptors`, and no function of the header returns
them. -/
theorem operation_handle_has_factory (d : Decl) (hd : d ∈ features2d_c)
    (hf : d.isFactory = false) (hr : d.isRelease = false) (T : CvClass)
    (hT : d.firstPtrClass = some T) :
    (factoriesOf features2d_c T ≠ [] ↔ T ∉ callerProvidedClasses) ∧
      (T ∈ callerProvidedClasses ↔
        d.name ∈ ["CvPatchGeneratorInit", "CvLDetectorDetectKeyPoints",
          "CvFeatureDetectorDetectKeyPoints", "CvSURFDetectorComputeDescriptors"]) := by
  revert d T
  decide

/-- C10 amended, at `CvDescriptorMatcherAdd`, whose handle
`cv::DescriptorMatcher*` is returned by `CvBruteForceMatcherCreate`. -/
theorem operation_handle_has_factory_witness :
    (⟨200, val .void, "CvDescriptorMatcherAdd",
        [p (ptr (.cv .DescriptorMatcher)) "matcher", p (ptr (.c .CvMat)) "trainDescriptor"]⟩ : Decl)
        ∈ features2d_c ∧
      factoriesOf features2d_c .DescriptorMatcher ≠ [] :=
  ⟨by decide,
    (operation_handle_has_factory
      ⟨200, val .void, "CvDescriptorMatcherAdd",
        [p (ptr (.cv .DescriptorMatcher)) "matcher", p (ptr (.c .CvMat)) "trainDescriptor"]⟩
      (by decide) (by decide) (by decide) .DescriptorMatcher (by decide)).1.mpr (by decide)⟩

/-! ## Descriptor computation and matching -/

/-- A vector resized to `n` has `n` elements. -/
theorem length_resize {V : Type} (fill : V) (v : List V) (n : Nat) :
    (resize fill v n).length = n := by
  simp only [resize, List.length_append, List.length_take, List.length_replicate]
  omega

/-- Rows of one width `w` hold `w` values each. -/
theorem sum_length_of_width {V : Type} (w : Nat) :
    ∀ rows : List (List V), (∀ row ∈ rows, row.length = w) →
      (rows.map List.length).sum = rows.length * w
  | [], _ => by simp
  | r :: rs, h => by
    have hr : r.length = w := h r (List.mem_cons_self r rs)
    have ih := sum_length_of_width w rs (fun row hrow => h row (List.mem_cons_of_mem r hrow))
    simp only [List.map_cons, List.sum_cons, List.length_cons, hr, ih]
    ring

/-- C7: on the model of `ComputeDescriptors`, for every handle, image and
keypoint sequence the descriptor matrix has one row per input keypoint, every
row is as wide as the descriptor size of the handle, and the matrix holds
`keypointCount × descriptorSize` values, the size to which line 77 of the
header resizes the output vector. -/
theorem compute_descriptors_shape {Image K V : Type} (detector : DetectorHandle Image K V)
    (image : Image) (keypoints : List K) (fill : V) (descriptors : List V) :
    (ComputeDescriptors detector image keypoints).length = keypoints.length ∧
      (∀ row ∈ ComputeDescriptors detector image keypoints,
        row.length = detector.descriptorSize) ∧
      ((ComputeDescriptors detector image keypoints).map List.length).sum
        = keypoints.length * detector.descriptorSize ∧
      (CvSIFTDetectorDetectFeature_resize fill detector.descriptorSize keypoints
        descriptors).length = keypoints.length * detector.descriptorSize := by
  have hw : ∀ row ∈ ComputeDescriptors detector image keypoints,
      row.length = detector.descriptorSize := by
    intro row hrow
    obtain ⟨kp, _, rfl⟩ := List.mem_map.mp hrow
    exact detector.describe_length image kp
  have hl : (ComputeDescriptors detector image keypoints).length = keypoints.length := by
    simp [ComputeDescriptors]
  refine ⟨hl, hw, ?_, length_resize _ _ _⟩
  rw [sum_length_of_width _ _ hw, hl]

/-- C7 at three keypoints and a handle of descriptor size 2: three rows, six
values. -/
theorem compute_descriptors_shape_witness :
    ComputeDescriptors exampleHandle (fun x y => x + 10 * y) [(1, 2), (3, 4), (0, 0)]
        = [[21, 22], [43, 44], [0, 1]] ∧
      ((ComputeDescriptors exampleHandle (fun x y => x + 10 * y)
        [(1, 2), (3, 4), (0, 0)]).map List.length).sum = 3 * 2 :=
  ⟨by decide,
    (compute_descriptors_shape exampleHandle (fun x y => x + 10 * y) [(1, 2), (3, 4), (0, 0)]
      (0 : Int) []).2.2.1⟩

end Features2d
